import Mathlib

set_option linter.unusedVariables false

/-!
Shallow embedding of the meraki repository (Python scripts that query the
Meraki cloud REST API).  HTTP interactions are modelled by explicit oracles
("worlds"): each outside request is answered by a field of a world record,
with `Except String` modelling a `requests.exceptions.RequestException`
(either a transport error or a `raise_for_status` on an HTTP error code).
Every run additionally returns the list of requests it issued, in order.
-/

/-- Single-quote character; Python error messages quote names with it. -/
def pyQuote : String := String.singleton (Char.ofNat 39)

/-- Round the exact rational `num / den` to the nearest integer with ties
going to the even integer.  CPython formats a float with `:.2f` by rounding
half-to-even on the exact binary value of the float; for the dyadic
divisions performed in this repository (denominator a power of 1024) the
float is exact whenever the numerator fits in the 53-bit mantissa, so this
rational rounding coincides with the Python output on those ranges. -/
def roundHalfEven (num den : Nat) : Nat :=
  let q := num / den
  let r := num % den
  if 2 * r < den then q
  else if den < 2 * r then q + 1
  else if q % 2 = 0 then q else q + 1

/-- Zero-pad a hundredths value to two digits. -/
def pad2 (n : Nat) : String :=
  if n < 10 then "0" ++ toString n else toString n

/-- Model of the Python expression `f"{num/den:.2f}"` for natural `num`,
`den`: the quotient rendered with exactly two decimal places. -/
def formatFixed2 (num den : Nat) : String :=
  let scaled := roundHalfEven (num * 100) den
  toString (scaled / 100) ++ "." ++ pad2 (scaled % 100)

/-- src/access_points.py lines 214-225 and the identical copy at
src/client_usage.py lines 158-169: convert a byte count to a
human-readable string by powers-of-1024 thresholds. -/
def bytes_to_human_readable (bytes_value : Nat) : String :=
  if bytes_value < 1024 then toString bytes_value ++ " B"
  else if bytes_value < 1024 ^ 2 then formatFixed2 bytes_value 1024 ++ " KB"
  else if bytes_value < 1024 ^ 3 then formatFixed2 bytes_value (1024 ^ 2) ++ " MB"
  else if bytes_value < 1024 ^ 4 then formatFixed2 bytes_value (1024 ^ 3) ++ " GB"
  else formatFixed2 bytes_value (1024 ^ 4) ++ " TB"

/-- An organization or network as read by the scripts: only the
`name` and `id` fields are ever accessed (both with `[...]`, so they are
required keys). -/
structure NamedEnt where
  name : String
  id : String
deriving DecidableEq

/-- The name-to-id loop shared verbatim by src/access_points.py lines
38-41 (and 60-63), src/client_events.py lines 35-38 (and 57-60) and
src/client_usage.py lines 38-41 (and 60-63): scan the list in order and
take the `id` of the first element whose `name` equals the target;
`none` models the loop variable still being `None` afterwards. -/
def findId : List NamedEnt → String → Option String
  | [], _ => none
  | e :: rest, target => if e.name = target then some e.id else findId rest target

/-- A device record as read by src/access_points.py: every field is read
with `.get`, so each is optional. `tags` defaults to `[]`. -/
structure Device where
  name : Option String := none
  serial : Option String := none
  model : Option String := none
  mac : Option String := none
  tags : Option (List String) := none
  lanIp : Option String := none
  firmware : Option String := none
  networkId : Option String := none
  status : Option String := none
  lastReportedAt : Option String := none
deriving DecidableEq

/-- The nested `usage` object of a raw client record; each counter is
read as `client.get('usage', {}).get('sent', 0)` and likewise for
`recv` and (in src/client_usage.py) `total`. -/
structure UsageSR where
  sent : Option Nat := none
  recv : Option Nat := none
  total : Option Nat := none
deriving DecidableEq

/-- A client record returned by the per-device clients endpoint in
src/access_points.py; only the `usage` object is read. -/
structure APClient where
  usage : Option UsageSR := none
deriving DecidableEq

/-- Python `client.get('usage', {}).get('sent', 0)`. -/
def clientSent (c : APClient) : Nat :=
  match c.usage with
  | none => 0
  | some u => u.sent.getD 0

/-- Python `client.get('usage', {}).get('recv', 0)`. -/
def clientRecv (c : APClient) : Nat :=
  match c.usage with
  | none => 0
  | some u => u.recv.getD 0

/-- Labels for the HTTP requests issued by the three fetch scripts.  The
fixed query parameters (timespans) do not vary within a run and are not
recorded. -/
inductive Req where
  | orgs
  | networks (orgId : String)
  | devices (networkId : String)
  | wirelessStatus (serial : String)
  | clients (serial : String)
  | connectionStats (serial : String)
  | latencyStats (serial : String)
  | netClients (networkId : String)
  | clientEvents (networkId : String) (clientId : String)
deriving DecidableEq

/-- Requests issued inside the per-AP detail loop of
src/access_points.py (step 4). -/
def Req.isDetail : Req → Bool
  | .wirelessStatus _ => true
  | .clients _ => true
  | .connectionStats _ => true
  | .latencyStats _ => true
  | _ => false

/-- Oracle for the HTTP interactions of src/access_points.py.  `now`
models `datetime.datetime.now().isoformat()`. -/
structure ApWorld where
  orgsResp : Except String (List NamedEnt)
  networksResp : String → Except String (List NamedEnt)
  devicesResp : String → Except String (List Device)
  statusResp : String → Except String (Option String)
  clientsResp : String → Except String (List APClient)
  connStatsResp : String → Except String String
  latencyResp : String → Except String String
  now : String := ""

/-- Per-AP traffic block built at src/access_points.py lines 159-166 and
the aggregate block at lines 201-208. -/
structure Traffic where
  sent : Nat
  received : Nat
  total : Nat
  sent_human : String
  received_human : String
  total_human : String
deriving DecidableEq

/-- The `wireless_status` block of an AP entry (src/access_points.py
lines 152-156); the connection and latency statistics are kept as opaque
JSON payloads. -/
structure WirelessBlock where
  status : String
  connectionStats : String
  latencyStats : String
deriving DecidableEq

/-- One entry of the `access_points` list, built at src/access_points.py
lines 141-167. -/
structure ApInfo where
  name : String
  serial : String
  model : String
  mac : String
  tags : List String
  lanIp : String
  firmware : String
  networkId : String
  status : String
  lastReportedAt : String
  wireless_status : WirelessBlock
  currentClients : Nat
  currentClientsDetails : List APClient
  currentTraffic : Traffic
deriving DecidableEq

/-- Insert-or-increment for the `defaultdict(int)` counters, preserving
first-occurrence insertion order as Python dicts do. -/
def bumpCount (l : List (String × Nat)) (k : String) : List (String × Nat) :=
  match l with
  | [] => [(k, 1)]
  | (a, n) :: rest => if a = k then (a, n + 1) :: rest else (a, n) :: bumpCount rest k

/-- Python `defaultdict(int)` counting loop over a list of keys. -/
def countBy (ks : List String) : List (String × Nat) :=
  ks.foldl bumpCount []

/-- The success dictionary returned at src/access_points.py
lines 194-212. -/
structure ApResult where
  organization : String
  network : String
  timespan_days : Nat
  timestamp : String
  total_access_points : Nat
  total_clients : Nat
  total_traffic : Traffic
  ap_status_summary : List (String × Nat)
  ap_model_summary : List (String × Nat)
  access_points : List ApInfo
deriving DecidableEq

/-- Body of the step-4 loop of src/access_points.py (lines 95-176) for a
single AP: issue the four detail requests in order, stopping at the
first failure; on failure the AP is skipped (`none`) but the requests
issued so far remain in the log.  A device without a truthy serial is
skipped without issuing any request (lines 96-98). -/
def apDetail (w : ApWorld) (d : Device) : Option ApInfo × List Req :=
  let s := d.serial.getD ""
  if s = "" then (none, [])
  else
    match w.statusResp s with
    | .error _ => (none, [.wirelessStatus s])
    | .ok statusData =>
      match w.clientsResp s with
      | .error _ => (none, [.wirelessStatus s, .clients s])
      | .ok clientsData =>
        match w.connStatsResp s with
        | .error _ => (none, [.wirelessStatus s, .clients s, .connectionStats s])
        | .ok connStats =>
          match w.latencyResp s with
          | .error _ =>
              (none, [.wirelessStatus s, .clients s, .connectionStats s, .latencyStats s])
          | .ok latStats =>
            let sent := (clientsData.map clientSent).sum
            let recv := (clientsData.map clientRecv).sum
            (some {
              name := d.name.getD "Unnamed"
              serial := s
              model := d.model.getD "Unknown"
              mac := d.mac.getD "Unknown"
              tags := d.tags.getD []
              lanIp := d.lanIp.getD "Unknown"
              firmware := d.firmware.getD "Unknown"
              networkId := d.networkId.getD "Unknown"
              status := d.status.getD "Unknown"
              lastReportedAt := d.lastReportedAt.getD "Unknown"
              wireless_status := {
                status := statusData.getD "Unknown"
                connectionStats := connStats
                latencyStats := latStats }
              currentClients := clientsData.length
              currentClientsDetails := clientsData
              currentTraffic := {
                sent := sent
                received := recv
                total := sent + recv
                sent_human := bytes_to_human_readable sent
                received_human := bytes_to_human_readable recv
                total_human := bytes_to_human_readable (sent + recv) } },
             [.wirelessStatus s, .clients s, .connectionStats s, .latencyStats s])

/-- The step-4 loop of src/access_points.py over the filtered AP list,
accumulating `ap_details` and the request log. -/
def processAps (w : ApWorld) : List Device → List ApInfo × List Req
  | [] => ([], [])
  | d :: rest =>
    let r1 := apDetail w d
    let r2 := processAps w rest
    (match r1.1 with
     | some i => i :: r2.1
     | none => r2.1,
     r1.2 ++ r2.2)

/-- The device filter of src/access_points.py line 82. -/
def selectAccessPoints (ds : List Device) : List Device :=
  ds.filter (fun d => (d.model.getD "").startsWith "CW")

/-- src/access_points.py lines 10-212, `get_meraki_ap_data`: resolve the
organization and network names, fetch the network devices, keep those
whose model starts with `CW`, fetch details per AP, and aggregate.  The
Python truthiness tests `if not org_id` / `if not network_id` treat both
`None` and the empty string as failures.  Returns the result (error
string or success record) together with the ordered request log. -/
def get_meraki_ap_data (w : ApWorld) (org_name network_name : String)
    (days : Nat) : Except String ApResult × List Req :=
  match w.orgsResp with
  | .error e => (.error ("Error retrieving organizations: " ++ e), [.orgs])
  | .ok organizations =>
    match findId organizations org_name with
    | none =>
        (.error ("Organization " ++ pyQuote ++ org_name ++ pyQuote ++ " not found"), [.orgs])
    | some org_id =>
      if org_id = "" then
        (.error ("Organization " ++ pyQuote ++ org_name ++ pyQuote ++ " not found"), [.orgs])
      else
        match w.networksResp org_id with
        | .error e =>
            (.error ("Error retrieving networks: " ++ e), [.orgs, .networks org_id])
        | .ok networks =>
          match findId networks network_name with
          | none =>
              (.error ("Network " ++ pyQuote ++ network_name ++ pyQuote ++
                " not found in organization " ++ pyQuote ++ org_name ++ pyQuote),
               [.orgs, .networks org_id])
          | some network_id =>
            if network_id = "" then
              (.error ("Network " ++ pyQuote ++ network_name ++ pyQuote ++
                " not found in organization " ++ pyQuote ++ org_name ++ pyQuote),
               [.orgs, .networks org_id])
            else
              match w.devicesResp network_id with
              | .error e =>
                  (.error ("Error retrieving devices: " ++ e),
                   [.orgs, .networks org_id, .devices network_id])
              | .ok all_devices =>
                let access_points := selectAccessPoints all_devices
                if access_points.isEmpty then
                  (.error "No access points found in the network",
                   [.orgs, .networks org_id, .devices network_id])
                else
                  let stepFour := processAps w access_points
                  let ap_details := stepFour.1
                  let total_clients := (ap_details.map (·.currentClients)).sum
                  let total_traffic_sent :=
                    (ap_details.map (·.currentTraffic.sent)).sum
                  let total_traffic_recv :=
                    (ap_details.map (·.currentTraffic.received)).sum
                  let total_traffic := total_traffic_sent + total_traffic_recv
                  (.ok {
                    organization := org_name
                    network := network_name
                    timespan_days := days
                    timestamp := w.now
                    total_access_points := ap_details.length
                    total_clients := total_clients
                    total_traffic := {
                      sent := total_traffic_sent
                      received := total_traffic_recv
                      total := total_traffic
                      sent_human := bytes_to_human_readable total_traffic_sent
                      received_human := bytes_to_human_readable total_traffic_recv
                      total_human := bytes_to_human_readable total_traffic }
                    ap_status_summary := countBy (ap_details.map (·.status))
                    ap_model_summary := countBy (ap_details.map (·.model))
                    access_points := ap_details },
                   [.orgs, .networks org_id, .devices network_id] ++ stepFour.2)

/-- A client record as read by src/client_usage.py lines 96-113: every
field is read with `.get`, so each is optional; `ssid` is `none` when the
key is absent (the script tests `"ssid" in client`). -/
structure UsageClient where
  id : Option String := none
  description : Option String := none
  mac : Option String := none
  ip : Option String := none
  user : Option String := none
  firstSeen : Option String := none
  lastSeen : Option String := none
  manufacturer : Option String := none
  os : Option String := none
  usage : Option UsageSR := none
  status : Option String := none
  ssid : Option String := none
deriving DecidableEq

/-- Python `client.get('usage', {}).get('total', 0)`. -/
def clientTotal (c : UsageClient) : Nat :=
  match c.usage with
  | none => 0
  | some u => u.total.getD 0

/-- The per-client `usage` sub-dictionary of the processed record
(src/client_usage.py lines 106-110). -/
structure CUsage where
  sent : Nat
  recv : Nat
  total : Nat
deriving DecidableEq

/-- One entry of the processed `clients` list (src/client_usage.py
lines 96-113). -/
structure ClientUsageRec where
  id : String
  description : String
  mac : String
  ip : String
  user : String
  firstSeen : String
  lastSeen : String
  manufacturer : String
  os : String
  usage : CUsage
  status : String
  ssid : String
deriving DecidableEq

/-- Build one processed record from a raw client
(src/client_usage.py lines 96-113). -/
def mkUsageRec (c : UsageClient) : ClientUsageRec :=
  { id := c.id.getD "Unknown"
    description := c.description.getD "Unknown"
    mac := c.mac.getD "Unknown"
    ip := c.ip.getD "Unknown"
    user := c.user.getD "Unknown"
    firstSeen := c.firstSeen.getD "Unknown"
    lastSeen := c.lastSeen.getD "Unknown"
    manufacturer := c.manufacturer.getD "Unknown"
    os := c.os.getD "Unknown"
    usage := {
      sent := match c.usage with | none => 0 | some u => u.sent.getD 0
      recv := match c.usage with | none => 0 | some u => u.recv.getD 0
      total := clientTotal c }
    status := c.status.getD "Unknown"
    ssid := match c.ssid with | some s => s | none => "Not Wireless" }

/-- Stable insertion into a list sorted by descending `usage.total`; the
inserted (earlier) element goes before later elements with an equal key,
matching Python `list.sort(key=..., reverse=True)` stability. -/
def insertByTotal (x : ClientUsageRec) : List ClientUsageRec → List ClientUsageRec
  | [] => [x]
  | y :: ys =>
    if y.usage.total ≤ x.usage.total then x :: y :: ys
    else y :: insertByTotal x ys

/-- Stable sort by descending `usage.total`
(src/client_usage.py line 118). -/
def sortByTotalDesc : List ClientUsageRec → List ClientUsageRec
  | [] => []
  | x :: xs => insertByTotal x (sortByTotalDesc xs)

/-- Insert-or-add for the `defaultdict(int)` accumulators of
src/client_usage.py lines 126-135, preserving insertion order. -/
def bumpAdd (l : List (String × Nat)) (k : String) (v : Nat) : List (String × Nat) :=
  match l with
  | [] => [(k, v)]
  | (a, n) :: rest => if a = k then (a, n + v) :: rest else (a, n) :: bumpAdd rest k v

/-- Python `defaultdict(int)` summing loop over key-value pairs. -/
def sumBy (kvs : List (String × Nat)) : List (String × Nat) :=
  kvs.foldl (fun acc kv => bumpAdd acc kv.1 kv.2) []

/-- The `total_usage` block of the client-usage result
(src/client_usage.py lines 142-149). -/
structure TotalUsage where
  sent_bytes : Nat
  received_bytes : Nat
  total_bytes : Nat
  sent_human : String
  received_human : String
  total_human : String
deriving DecidableEq

/-- The success dictionary returned at src/client_usage.py
lines 137-153. -/
structure UsageResult where
  organization : String
  network : String
  timespan_days : Nat
  total_clients : Nat
  total_usage : TotalUsage
  usage_by_os : List (String × Nat)
  usage_by_ssid : List (String × Nat)
  clients : List ClientUsageRec
deriving DecidableEq

/-- Outcome of src/client_usage.py: an `error` dictionary, a `message`
dictionary (empty client list, line 88), or the success dictionary. -/
inductive UOutcome where
  | err (msg : String)
  | msg (msg : String)
  | ok (r : UsageResult)
deriving DecidableEq

/-- Oracle for the HTTP interactions of src/client_usage.py. -/
structure UsageWorld where
  orgsResp : Except String (List NamedEnt)
  networksResp : String → Except String (List NamedEnt)
  clientsResp : String → Except String (List UsageClient)

/-- src/client_usage.py lines 10-156, `get_meraki_client_usage`: resolve
the organization and network names, fetch the client list for the
timespan, process and sort it, and aggregate usage totals.  All of steps
3-4 share one `try` block, so a request exception there yields the error
dictionary directly. -/
def get_meraki_client_usage (w : UsageWorld) (org_name network_name : String)
    (days : Nat) : UOutcome × List Req :=
  match w.orgsResp with
  | .error e => (.err ("Error retrieving organizations: " ++ e), [.orgs])
  | .ok organizations =>
    match findId organizations org_name with
    | none =>
        (.err ("Organization " ++ pyQuote ++ org_name ++ pyQuote ++ " not found"), [.orgs])
    | some org_id =>
      if org_id = "" then
        (.err ("Organization " ++ pyQuote ++ org_name ++ pyQuote ++ " not found"), [.orgs])
      else
        match w.networksResp org_id with
        | .error e =>
            (.err ("Error retrieving networks: " ++ e), [.orgs, .networks org_id])
        | .ok networks =>
          match findId networks network_name with
          | none =>
              (.err ("Network " ++ pyQuote ++ network_name ++ pyQuote ++
                " not found in organization " ++ pyQuote ++ org_name ++ pyQuote),
               [.orgs, .networks org_id])
          | some network_id =>
            if network_id = "" then
              (.err ("Network " ++ pyQuote ++ network_name ++ pyQuote ++
                " not found in organization " ++ pyQuote ++ org_name ++ pyQuote),
               [.orgs, .networks org_id])
            else
              match w.clientsResp network_id with
              | .error e =>
                  (.err ("Error retrieving client usage data: " ++ e),
                   [.orgs, .networks org_id, .netClients network_id])
              | .ok clients =>
                if clients.isEmpty then
                  (.msg "No clients found in the network for the specified time period",
                   [.orgs, .networks org_id, .netClients network_id])
                else
                  let client_usage := sortByTotalDesc (clients.map mkUsageRec)
                  let total_sent := (client_usage.map (·.usage.sent)).sum
                  let total_recv := (client_usage.map (·.usage.recv)).sum
                  let total_usage := (client_usage.map (·.usage.total)).sum
                  (.ok {
                    organization := org_name
                    network := network_name
                    timespan_days := days
                    total_clients := clients.length
                    total_usage := {
                      sent_bytes := total_sent
                      received_bytes := total_recv
                      total_bytes := total_usage
                      sent_human := bytes_to_human_readable total_sent
                      received_human := bytes_to_human_readable total_recv
                      total_human := bytes_to_human_readable total_usage }
                    usage_by_os := sumBy (client_usage.map (fun c =>
                      (if c.os ≠ "Unknown" then c.os else "Other", c.usage.total)))
                    usage_by_ssid := sumBy (client_usage.map (fun c =>
                      (if c.ssid ≠ "Unknown" then c.ssid else "Other", c.usage.total)))
                    clients := client_usage },
                   [.orgs, .networks org_id, .netClients network_id])

/-- A client record as read by src/client_events.py: `id` is accessed
with `[...]` (required), the rest with `.get`. -/
structure EventClient where
  id : String
  mac : Option String := none
  description : Option String := none
deriving DecidableEq

/-- One annotated event appended at src/client_events.py lines 111-115:
the event payload (kept opaque) plus the client fields the loop adds. -/
structure AnnEvent where
  payload : String
  clientId : String
  clientMac : String
  clientDescription : String
deriving DecidableEq

/-- The success dictionary returned at src/client_events.py
lines 124-130. -/
structure EventsResult where
  organization : String
  network : String
  clientCount : Nat
  eventCount : Nat
  events : List AnnEvent
deriving DecidableEq

/-- Outcome of src/client_events.py: an `error` dictionary, the
`message` dictionary for an empty client list (line 84), or the success
dictionary. -/
inductive EOutcome where
  | err (msg : String)
  | msg (msg : String)
  | ok (r : EventsResult)
deriving DecidableEq

/-- Oracle for the HTTP interactions of src/client_events.py.  The events
response per client is `none` when the JSON is falsy or lacks an
`events` key (line 110), else the list of (opaque) events. -/
structure EventsWorld where
  orgsResp : Except String (List NamedEnt)
  networksResp : String → Except String (List NamedEnt)
  clientsResp : String → Except String (List EventClient)
  eventsResp : String → String → Except String (Option (List String))

/-- Annotate the events of one client (src/client_events.py
lines 111-115). -/
def annotateEvents (c : EventClient) (evs : List String) : List AnnEvent :=
  evs.map (fun ev =>
    { payload := ev
      clientId := c.id
      clientMac := c.mac.getD "Unknown"
      clientDescription := c.description.getD "Unknown" })

/-- The step-4 loop of src/client_events.py (lines 95-122): one events
request per client; a request exception skips the client, a falsy or
events-free JSON contributes nothing. -/
def eventsLoop (w : EventsWorld) (network_id : String) :
    List EventClient → List AnnEvent × List Req
  | [] => ([], [])
  | c :: rest =>
    let r2 := eventsLoop w network_id rest
    match w.eventsResp network_id c.id with
    | .error _ => (r2.1, .clientEvents network_id c.id :: r2.2)
    | .ok none => (r2.1, .clientEvents network_id c.id :: r2.2)
    | .ok (some evs) =>
        (annotateEvents c evs ++ r2.1, .clientEvents network_id c.id :: r2.2)

/-- src/client_events.py lines 8-130, `get_meraki_client_events`:
resolve the organization and network names, fetch the client list, then
fetch and annotate each client's events, skipping clients whose events
request fails. -/
def get_meraki_client_events (w : EventsWorld) (org_name network_name : String) :
    EOutcome × List Req :=
  match w.orgsResp with
  | .error e => (.err ("Error retrieving organizations: " ++ e), [.orgs])
  | .ok organizations =>
    match findId organizations org_name with
    | none =>
        (.err ("Organization " ++ pyQuote ++ org_name ++ pyQuote ++ " not found"), [.orgs])
    | some org_id =>
      if org_id = "" then
        (.err ("Organization " ++ pyQuote ++ org_name ++ pyQuote ++ " not found"), [.orgs])
      else
        match w.networksResp org_id with
        | .error e =>
            (.err ("Error retrieving networks: " ++ e), [.orgs, .networks org_id])
        | .ok networks =>
          match findId networks network_name with
          | none =>
              (.err ("Network " ++ pyQuote ++ network_name ++ pyQuote ++
                " not found in organization " ++ pyQuote ++ org_name ++ pyQuote),
               [.orgs, .networks org_id])
          | some network_id =>
            if network_id = "" then
              (.err ("Network " ++ pyQuote ++ network_name ++ pyQuote ++
                " not found in organization " ++ pyQuote ++ org_name ++ pyQuote),
               [.orgs, .networks org_id])
            else
              match w.clientsResp network_id with
              | .error e =>
                  (.err ("Error retrieving clients: " ++ e),
                   [.orgs, .networks org_id, .netClients network_id])
              | .ok clients =>
                if clients.isEmpty then
                  (.msg "No clients found in the network",
                   [.orgs, .networks org_id, .netClients network_id])
                else
                  let loopRes := eventsLoop w network_id clients
                  (.ok {
                    organization := org_name
                    network := network_name
                    clientCount := clients.length
                    eventCount := loopRes.1.length
                    events := loopRes.1 },
                   [.orgs, .networks org_id, .netClients network_id] ++ loopRes.2)

/-- Model of CPython `int(s)` on a string: surrounding whitespace and one
leading `+` are tolerated, otherwise the string must be an optionally
negated decimal numeral (digit-group underscores are not modelled). -/
def pyInt? (s : String) : Option Int :=
  let t := s.trim
  (if t.startsWith "+" then t.drop 1 else t).toInt?

/-- Python `str.split()` with no argument: split on whitespace runs,
discarding empty pieces. -/
def pySplit (s : String) : List String :=
  (s.split (fun c => c.isWhitespace)).filter (fun t => t ≠ "")

/-- Python substring test `pat in s`. -/
def containsSub (s pat : String) : Bool :=
  (List.range (s.length + 1)).any (fun i => (s.drop i).startsWith pat)

/-- A network record as read by the chatbot's `get_networks`
(src/meraki.py lines 44-48): `id`, `name` and `productTypes` are indexed
directly, so required. -/
structure NetRec where
  id : String
  name : String
  productTypes : List String
deriving DecidableEq

/-- A device record as read by the chatbot's `get_devices`
(src/meraki.py lines 60-63). -/
structure DevRec where
  name : Option String := none
  model : Option String := none
  serial : Option String := none
deriving DecidableEq

/-- An SSID record as read by the chatbot's `get_ssids`
(src/meraki.py lines 77-82). -/
structure SsidRec where
  number : Option Nat := none
  name : Option String := none
  enabled : Option Bool := none
  authMode : Option String := none
deriving DecidableEq

/-- A client record as read by the chatbot's `get_clients`
(src/meraki.py lines 97-100). -/
structure CliRec where
  description : Option String := none
  mac : Option String := none
  ip : Option String := none
  vlan : Option Nat := none
deriving DecidableEq

/-- An HTTP response as consumed by the chatbot (identical classes in
src/meraki.py and src/flask_bot.py).  `retryAfter` is the raw
`Retry-After` header if present.  Each `...Body` field is the value
`response.json()` parses to when the response answers the corresponding
endpoint; a response is only ever read through the body field matching
the endpoint that produced it. -/
structure Resp where
  status_code : Nat := 200
  text : String := ""
  retryAfter : Option String := none
  orgsBody : List NamedEnt := []
  netsBody : List NetRec := []
  devsBody : List DevRec := []
  ssidsBody : List SsidRec := []
  cliBody : List CliRec := []
  vpnBody : String := ""
deriving DecidableEq

/-- What `_make_request` hands back to its caller: either the real
response or the `MockResponse(500, str(e))` built in the
`RequestException` handler (src/meraki.py lines 139-146). -/
inductive RespLike where
  | real (r : Resp)
  | mock (status_code : Nat) (text : String)
deriving DecidableEq

/-- Python `response.status_code` on either kind of response. -/
def RespLike.status_code : RespLike → Nat
  | .real r => r.status_code
  | .mock c _ => c

/-- Python `response.text`; a `MockResponse` stores the exception text. -/
def RespLike.text : RespLike → String
  | .real r => r.text
  | .mock _ t => t

/-- Python `response.json()` read as an organization list.  The mock
branch is unreachable in the callers: a mock always carries status 500
and `json()` is only called on status 200. -/
def RespLike.orgsJson : RespLike → List NamedEnt
  | .real r => r.orgsBody
  | .mock _ _ => []

/-- Python `response.json()` read as a network list. -/
def RespLike.netsJson : RespLike → List NetRec
  | .real r => r.netsBody
  | .mock _ _ => []

/-- Python `response.json()` read as a device list. -/
def RespLike.devsJson : RespLike → List DevRec
  | .real r => r.devsBody
  | .mock _ _ => []

/-- Python `response.json()` read as an SSID list. -/
def RespLike.ssidsJson : RespLike → List SsidRec
  | .real r => r.ssidsBody
  | .mock _ _ => []

/-- Python `response.json()` read as a client list. -/
def RespLike.cliJson : RespLike → List CliRec
  | .real r => r.cliBody
  | .mock _ _ => []

/-- Python `json.dumps(response.json(), indent=2)`; the re-serialized
payload is kept opaque. -/
def RespLike.vpnJson : RespLike → String
  | .real r => r.vpnBody
  | .mock _ _ => ""

deriving instance DecidableEq for Except

namespace MerakiChatbot

/-- The chatbot's base URL (src/meraki.py line 9). -/
def base_url : String := "https://api.meraki.com/api/v1"

/-- Result of one `_make_request` call: the outcome (`.error` models an
uncaught Python exception propagating to the caller), the sequence of
`time.sleep` durations performed for 429 responses, and the number of
underlying HTTP calls made. -/
structure MRes where
  outcome : Except String RespLike
  sleeps : List Int
  calls : Nat
deriving DecidableEq

/-- The retry loop of `_make_request` (src/meraki.py lines 119-146,
identical at src/flask_bot.py lines 124-151), driven by the successive
outcomes of the underlying `requests` calls.  A 429 response triggers
`time.sleep(int(headers.get('Retry-After', 1)))` and a recursive call on
the same arguments; a `RequestException` is converted to
`MockResponse(500, str(e))`; `int()` on an unparseable `Retry-After`
header raises a `ValueError` that no handler catches.  `none` models the
unbounded recursion running past the supplied outcomes. -/
def mrLoop : List (Except String Resp) → Option MRes
  | [] => none
  | .error e :: _ => some ⟨.ok (.mock 500 e), [], 1⟩
  | .ok r :: rest =>
    if r.status_code = 429 then
      match r.retryAfter with
      | none =>
        match mrLoop rest with
        | none => none
        | some m => some ⟨m.outcome, 1 :: m.sleeps, m.calls + 1⟩
      | some hs =>
        match pyInt? hs with
        | none =>
            some ⟨.error ("ValueError: invalid literal for int() with base 10: " ++
              pyQuote ++ hs ++ pyQuote), [], 1⟩
        | some n =>
          match mrLoop rest with
          | none => none
          | some m => some ⟨m.outcome, n :: m.sleeps, m.calls + 1⟩
    else some ⟨.ok (.real r), [], 1⟩

/-- `MerakiChatbot._make_request` (src/meraki.py lines 117-146 and
src/flask_bot.py lines 122-151): dispatch on the HTTP method, raising
`ValueError` for an unsupported one, then run the 429 retry loop. -/
def make_request (method _endpoint : String)
    (attempts : List (Except String Resp)) : Option MRes :=
  if method = "GET" ∨ method = "POST" ∨ method = "PUT" ∨ method = "DELETE" then
    mrLoop attempts
  else
    some ⟨.error ("ValueError: Unsupported HTTP method: " ++ method), [], 0⟩

/-- Result of one chatbot command or API helper: the reply text
(`.error` models an uncaught exception) and the number of HTTP calls
performed. -/
structure CRes where
  reply : Except String String
  calls : Nat
deriving DecidableEq

/-- `MerakiChatbot.get_organizations` (src/meraki.py lines 27-37). -/
def get_organizations (attempts : List (Except String Resp)) : Option CRes :=
  match make_request "GET" (base_url ++ "/organizations") attempts with
  | none => none
  | some m =>
    match m.outcome with
    | .error e => some ⟨.error e, m.calls⟩
    | .ok resp =>
      if resp.status_code = 200 then
        some ⟨.ok ("Found " ++ toString resp.orgsJson.length ++ " organizations:\n" ++
          String.intercalate "\n" (resp.orgsJson.map
            (fun org => "ID: " ++ org.id ++ " - Name: " ++ org.name))), m.calls⟩
      else
        some ⟨.ok ("Failed to retrieve organizations. Status code: " ++
          toString resp.status_code ++ " - " ++ resp.text), m.calls⟩

/-- `MerakiChatbot.get_networks` (src/meraki.py lines 39-50). -/
def get_networks (org_id : String)
    (attempts : List (Except String Resp)) : Option CRes :=
  match make_request "GET" (base_url ++ "/organizations/" ++ org_id ++ "/networks") attempts with
  | none => none
  | some m =>
    match m.outcome with
    | .error e => some ⟨.error e, m.calls⟩
    | .ok resp =>
      if resp.status_code = 200 then
        some ⟨.ok ("Found " ++ toString resp.netsJson.length ++ " networks in organization " ++
          org_id ++ ":\n" ++
          String.intercalate "\n" (resp.netsJson.map
            (fun net => "ID: " ++ net.id ++ " - Name: " ++ net.name ++ " - Type: " ++
              String.intercalate "," net.productTypes))), m.calls⟩
      else
        some ⟨.ok ("Failed to retrieve networks. Status code: " ++
          toString resp.status_code ++ " - " ++ resp.text), m.calls⟩

/-- `MerakiChatbot.get_devices` (src/meraki.py lines 52-67). -/
def get_devices (network_id : String)
    (attempts : List (Except String Resp)) : Option CRes :=
  match make_request "GET" (base_url ++ "/networks/" ++ network_id ++ "/devices") attempts with
  | none => none
  | some m =>
    match m.outcome with
    | .error e => some ⟨.error e, m.calls⟩
    | .ok resp =>
      if resp.status_code = 200 then
        some ⟨.ok ("Found " ++ toString resp.devsJson.length ++ " devices in network " ++
          network_id ++ ":\n" ++
          String.intercalate "\n" (resp.devsJson.map
            (fun d => "Name: " ++ d.name.getD "Unnamed" ++ " - Model: " ++
              d.model.getD "N/A" ++ " - Serial: " ++ d.serial.getD "N/A"))), m.calls⟩
      else
        some ⟨.ok ("Failed to retrieve devices. Status code: " ++
          toString resp.status_code ++ " - " ++ resp.text), m.calls⟩

/-- `MerakiChatbot.get_ssids` (src/meraki.py lines 69-86). -/
def get_ssids (network_id : String)
    (attempts : List (Except String Resp)) : Option CRes :=
  match make_request "GET" (base_url ++ "/networks/" ++ network_id ++ "/wireless/ssids") attempts with
  | none => none
  | some m =>
    match m.outcome with
    | .error e => some ⟨.error e, m.calls⟩
    | .ok resp =>
      if resp.status_code = 200 then
        some ⟨.ok ("Found " ++ toString resp.ssidsJson.length ++ " SSIDs in network " ++
          network_id ++ ":\n" ++
          String.intercalate "\n" (resp.ssidsJson.map
            (fun ssid =>
              "Number: " ++ (match ssid.number with | some k => toString k | none => "N/A") ++
              " - Name: " ++ ssid.name.getD "Unnamed" ++
              " - Status: " ++ (if ssid.enabled.getD false then "Enabled" else "Disabled") ++
              " - Auth Mode: " ++ ssid.authMode.getD "N/A"))), m.calls⟩
      else
        some ⟨.ok ("Failed to retrieve SSIDs. Status code: " ++
          toString resp.status_code ++ " - " ++ resp.text), m.calls⟩

/-- `MerakiChatbot.get_clients` (src/meraki.py lines 88-104); the
timespan is only a query parameter and does not affect the model. -/
def get_clients (network_id : String) (_timespan : Int)
    (attempts : List (Except String Resp)) : Option CRes :=
  match make_request "GET" (base_url ++ "/networks/" ++ network_id ++ "/clients") attempts with
  | none => none
  | some m =>
    match m.outcome with
    | .error e => some ⟨.error e, m.calls⟩
    | .ok resp =>
      if resp.status_code = 200 then
        some ⟨.ok ("Found " ++ toString resp.cliJson.length ++ " clients in network " ++
          network_id ++ ":\n" ++
          String.intercalate "\n" (resp.cliJson.map
            (fun c => "Description: " ++ c.description.getD "N/A" ++
              " - MAC: " ++ c.mac.getD "N/A" ++
              " - IP: " ++ c.ip.getD "N/A" ++
              " - VLAN: " ++ (match c.vlan with | some v => toString v | none => "N/A")))), m.calls⟩
      else
        some ⟨.ok ("Failed to retrieve clients. Status code: " ++
          toString resp.status_code ++ " - " ++ resp.text), m.calls⟩

/-- `MerakiChatbot.get_vpn_status` (src/meraki.py lines 106-115). -/
def get_vpn_status (network_id : String)
    (attempts : List (Except String Resp)) : Option CRes :=
  match make_request "GET" (base_url ++ "/networks/" ++ network_id ++ "/appliance/vpn/status") attempts with
  | none => none
  | some m =>
    match m.outcome with
    | .error e => some ⟨.error e, m.calls⟩
    | .ok resp =>
      if resp.status_code = 200 then
        some ⟨.ok resp.vpnJson, m.calls⟩
      else
        some ⟨.ok ("Failed to retrieve VPN status. Status code: " ++
          toString resp.status_code ++ " - " ++ resp.text), m.calls⟩

/-- Python truthiness of `self.api_key`: `None` and the empty string are
both falsy. -/
def keyFalsy : Option String → Bool
  | none => true
  | some s => s = ""

/-- The help text returned by `_get_help` (src/meraki.py
lines 192-208). -/
def help_text : String :=
  "\nAvailable Commands:\n------------------\n" ++
  "help                            - Show this help message\n" ++
  "set_api_key YOUR_API_KEY        - Set your Meraki API key\n" ++
  "get_organizations (orgs)        - List all organizations you have access to\n" ++
  "get_networks ORG_ID (networks)  - List all networks in an organization\n" ++
  "get_devices NETWORK_ID (devices)- List all devices in a network\n" ++
  "get_ssids NETWORK_ID (ssids)    - List all SSIDs in a network\n" ++
  "get_clients NETWORK_ID [TIMESPAN]- List clients in a network (default timespan: 1 hour)\n" ++
  "get_vpn NETWORK_ID (vpn)        - Get VPN status for a network\n\n" ++
  "Short command aliases are shown in parentheses.\n"

/-- Result of `process_command`: the reply (`.error` models an uncaught
exception), the number of HTTP calls made, and the chatbot's `api_key`
after the command (only `set_api_key` changes it). -/
structure PCRes where
  reply : Except String String
  calls : Nat
  api_key : Option String
deriving DecidableEq

/-- `MerakiChatbot.process_command` (src/meraki.py lines 148-190 and
src/flask_bot.py lines 153-195): an empty command is rejected first; a
whitespace-only command makes `cmd_parts[0]` raise `IndexError`;
commands other than `help` / `set_api_key` require a truthy API key;
then the command dispatches to the API helpers. -/
def process_command (api_key : Option String) (command : String)
    (attempts : List (Except String Resp)) : Option PCRes :=
  if command = "" then some ⟨.ok "Please enter a command.", 0, api_key⟩
  else
    match pySplit command with
    | [] => some ⟨.error "IndexError: list index out of range", 0, api_key⟩
    | cmd0 :: args =>
      let cmd := cmd0.toLower
      if cmd ≠ "help" ∧ cmd ≠ "set_api_key" ∧ keyFalsy api_key then
        some ⟨.ok "Please set your API key first using: set_api_key YOUR_API_KEY", 0, api_key⟩
      else if cmd = "help" then
        some ⟨.ok help_text, 0, api_key⟩
      else if cmd = "set_api_key" then
        match args with
        | [] => some ⟨.ok "Please provide an API key. Usage: set_api_key YOUR_API_KEY", 0, api_key⟩
        | k :: _ => some ⟨.ok "API key has been set successfully.", 0, some k⟩
      else if cmd = "get_organizations" ∨ cmd = "orgs" then
        (get_organizations attempts).map (fun c => ⟨c.reply, c.calls, api_key⟩)
      else if cmd = "get_networks" ∨ cmd = "networks" then
        match args with
        | [] => some ⟨.ok "Please provide an organization ID. Usage: get_networks ORG_ID", 0, api_key⟩
        | oid :: _ => (get_networks oid attempts).map (fun c => ⟨c.reply, c.calls, api_key⟩)
      else if cmd = "get_devices" ∨ cmd = "devices" then
        match args with
        | [] => some ⟨.ok "Please provide a network ID. Usage: get_devices NETWORK_ID", 0, api_key⟩
        | nid :: _ => (get_devices nid attempts).map (fun c => ⟨c.reply, c.calls, api_key⟩)
      else if cmd = "get_ssids" ∨ cmd = "ssids" then
        match args with
        | [] => some ⟨.ok "Please provide a network ID. Usage: get_ssids NETWORK_ID", 0, api_key⟩
        | nid :: _ => (get_ssids nid attempts).map (fun c => ⟨c.reply, c.calls, api_key⟩)
      else if cmd = "get_clients" ∨ cmd = "clients" then
        match args with
        | [] => some ⟨.ok "Please provide a network ID. Usage: get_clients NETWORK_ID [TIMESPAN_SECONDS]", 0, api_key⟩
        | nid :: rest =>
          match rest with
          | [] => (get_clients nid 3600 attempts).map (fun c => ⟨c.reply, c.calls, api_key⟩)
          | t :: _ =>
            match pyInt? t with
            | none =>
                some ⟨.error ("ValueError: invalid literal for int() with base 10: " ++
                  pyQuote ++ t ++ pyQuote), 0, api_key⟩
            | some ts => (get_clients nid ts attempts).map (fun c => ⟨c.reply, c.calls, api_key⟩)
      else if cmd = "get_vpn" ∨ cmd = "vpn" then
        match args with
        | [] => some ⟨.ok "Please provide a network ID. Usage: get_vpn NETWORK_ID", 0, api_key⟩
        | nid :: _ => (get_vpn_status nid attempts).map (fun c => ⟨c.reply, c.calls, api_key⟩)
      else
        some ⟨.ok ("Unknown command: " ++ cmd ++ ". Type " ++ pyQuote ++ "help" ++ pyQuote ++
          " to see available commands."), 0, api_key⟩

end MerakiChatbot

/-- The mutable state of the Flask front-end (src/flask_bot.py): the
single module-level `chatbot` instance's `api_key` (line 216) and the
per-user session store, indexed by session id. -/
structure FlaskState where
  chatbotKey : Option String
  sess : String → Option String

/-- The `/process_command` Flask route (src/flask_bot.py lines 227-243):
if the caller's session holds an API key, install it on the shared
chatbot; process the command; store the key in the session when a
`set_api_key` command reports success. -/
def route_process_command (attempts : List (Except String Resp))
    (st : FlaskState) (sid : String) (command : String) :
    Option (Except String String × FlaskState) :=
  let key1 := match st.sess sid with
    | some k => some k
    | none => st.chatbotKey
  match MerakiChatbot.process_command key1 command attempts with
  | none => none
  | some pc =>
    match pc.reply with
    | .error e => some (.error e, ⟨pc.api_key, st.sess⟩)
    | .ok resp =>
      let newSess :=
        if command.startsWith "set_api_key" &&
            containsSub resp "API key has been set successfully" then
          match (pySplit command).drop 1 with
          | k :: _ => fun x => if x = sid then some k else st.sess x
          | [] => st.sess
        else st.sess
      some (.ok resp, ⟨pc.api_key, newSess⟩)

/-- Project the reply out of a route outcome. -/
def respOf (o : Option (Except String String × FlaskState)) :
    Option (Except String String) :=
  o.map (·.1)

/-- Events contributed by one client in the step-4 loop of
src/client_events.py: empty when the request fails or the JSON is falsy
or lacks an `events` key. -/
def evOne (w : EventsWorld) (network_id : String) (c : EventClient) : List AnnEvent :=
  match w.eventsResp network_id c.id with
  | .error _ => []
  | .ok none => []
  | .ok (some evs) => annotateEvents c evs

/-- Extract a success result of the AP script, with a dummy fallback. -/
def apOkD : Except String ApResult → ApResult
  | .ok r => r
  | .error _ => ⟨"", "", 0, "", 0, 0, ⟨0, 0, 0, "", "", ""⟩, [], [], []⟩

/-- Extract a success result of the client-usage script, with a dummy
fallback. -/
def uOkD : UOutcome → UsageResult
  | .ok r => r
  | _ => ⟨"", "", 0, 0, ⟨0, 0, 0, "", "", ""⟩, [], [], []⟩

/-- A concrete world in which every request of the AP script succeeds:
one matching organization, one matching network, one `CW` access point
(plus one switch) and one associated wireless client. -/
def apW0 : ApWorld := {
  orgsResp := .ok [⟨"O", "oid1"⟩]
  networksResp := fun _ => .ok [⟨"N", "nid1"⟩]
  devicesResp := fun _ => .ok [{model := some "CW9166", serial := some "S1"},
                               {model := some "MS250", serial := some "S2"}]
  statusResp := fun _ => .ok (some "online")
  clientsResp := fun _ => .ok [{usage := some {sent := some 700, recv := some 900}}]
  connStatsResp := fun _ => .ok "cs"
  latencyResp := fun _ => .ok "ls" }

/-- A concrete world like `apW0` but with two access points, the second
of which fails its wireless-status request. -/
def apWpartial : ApWorld := {
  orgsResp := .ok [⟨"O", "oid1"⟩]
  networksResp := fun _ => .ok [⟨"N", "nid1"⟩]
  devicesResp := fun _ => .ok [{model := some "CW9166", serial := some "S1"},
                               {model := some "CW9164", serial := some "S2"},
                               {model := some "CW9162", serial := some "S3"}]
  statusResp := fun s => if s = "S2" then .error "down" else .ok (some "online")
  clientsResp := fun _ => .ok [{usage := some {sent := some 700, recv := some 900}}]
  connStatsResp := fun _ => .ok "cs"
  latencyResp := fun _ => .ok "ls" }

/-- A concrete world whose organization list contains an exact name
match carrying an empty (hence falsy) `id`. -/
def apWemptyId : ApWorld := {
  orgsResp := .ok [⟨"Acme", ""⟩]
  networksResp := fun _ => .error "unused"
  devicesResp := fun _ => .error "unused"
  statusResp := fun _ => .error "unused"
  clientsResp := fun _ => .error "unused"
  connStatsResp := fun _ => .error "unused"
  latencyResp := fun _ => .error "unused" }

/-- A concrete world whose organizations request raises. -/
def apWorgFail : ApWorld := {
  orgsResp := .error "boom"
  networksResp := fun _ => .error "unused"
  devicesResp := fun _ => .error "unused"
  statusResp := fun _ => .error "unused"
  clientsResp := fun _ => .error "unused"
  connStatsResp := fun _ => .error "unused"
  latencyResp := fun _ => .error "unused" }

/-- A concrete world whose network contains no device with a model
starting in `CW`. -/
def apWnoCW : ApWorld := {
  orgsResp := .ok [⟨"O", "oid1"⟩]
  networksResp := fun _ => .ok [⟨"N", "nid1"⟩]
  devicesResp := fun _ => .ok [{model := some "MS250", serial := some "S2"}]
  statusResp := fun _ => .error "unused"
  clientsResp := fun _ => .error "unused"
  connStatsResp := fun _ => .error "unused"
  latencyResp := fun _ => .error "unused" }

/-- A concrete successful world for the client-usage script. -/
def usageW0 : UsageWorld := {
  orgsResp := .ok [⟨"O", "oid1"⟩]
  networksResp := fun _ => .ok [⟨"N", "nid1"⟩]
  clientsResp := fun _ => .ok [
    {id := some "c1", os := some "iOS",
     usage := some {sent := some 10, recv := some 20, total := some 30},
     ssid := some "Wifi"},
    {id := some "c2",
     usage := some {sent := some 5, recv := some 6, total := some 100}}] }

/-- A concrete world for the client-events script in which the second
client's events request fails. -/
def eventsW0 : EventsWorld := {
  orgsResp := .ok [⟨"O", "oid1"⟩]
  networksResp := fun _ => .ok [⟨"N", "nid1"⟩]
  clientsResp := fun _ => .ok [⟨"c1", some "m1", some "d1"⟩, ⟨"c2", none, none⟩]
  eventsResp := fun _ cid => if cid = "c2" then .error "down" else .ok (some ["ev1", "ev2"]) }

/-- One attempt outcome for the Flask scenario: the underlying request
raises a `RequestException`. -/
def flaskW0 : List (Except String Resp) := [.error "boom"]

/-- The Flask process state at start-up: no key on the shared chatbot,
no session has stored a key. -/
def flaskS0 : FlaskState := ⟨none, fun _ => none⟩

/-- The Flask process state after session `A` has successfully run
`set_api_key K123`. -/
def flaskS1 : FlaskState :=
  match route_process_command flaskW0 flaskS0 "A" "set_api_key K123" with
  | some (_, st) => st
  | none => flaskS0

theorem processAps_eq_filterMap (w : ApWorld) (l : List Device) :
    (processAps w l).1 = l.filterMap (fun d => (apDetail w d).1) := by
  induction l with
  | nil => rfl
  | cons d rest ih =>
    simp only [processAps, List.filterMap_cons]
    cases h : (apDetail w d).1 <;> simp [h, ih]

theorem apDetail_log_detail (w : ApWorld) (d : Device) :
    ((apDetail w d).2).all Req.isDetail = true := by
  simp only [apDetail]
  repeat' split
  all_goals rfl

theorem processAps_log_detail (w : ApWorld) (l : List Device) :
    ((processAps w l).2).all Req.isDetail = true := by
  induction l with
  | nil => rfl
  | cons d rest ih =>
    simp only [processAps]
    simp [List.all_append, apDetail_log_detail w d, ih]

theorem eventsLoop_eq_flatten (w : EventsWorld) (nid : String) (l : List EventClient) :
    (eventsLoop w nid l).1 = (l.map (evOne w nid)).flatten := by
  induction l with
  | nil => rfl
  | cons c rest ih =>
    simp only [eventsLoop, evOne, List.map_cons, List.flatten]
    cases h : w.eventsResp nid c.id with
    | error e => simp [h, ih]
    | ok o => cases o <;> simp [h, ih]

/-- C2: `bytes_to_human_readable` formats a byte count by powers-of-1024
thresholds: below 1024 as the integer with " B"; in each higher range as
the value divided by the range's power of 1024, rendered with two
decimals and the matching unit; in particular 1536 renders as
"1.50 KB". -/
theorem byte_formatting_thresholds :
    (∀ n : Nat, n < 1024 → bytes_to_human_readable n = toString n ++ " B") ∧
    (∀ n : Nat, 1024 ≤ n → n < 1024 ^ 2 →
      bytes_to_human_readable n = formatFixed2 n 1024 ++ " KB") ∧
    (∀ n : Nat, 1024 ^ 2 ≤ n → n < 1024 ^ 3 →
      bytes_to_human_readable n = formatFixed2 n (1024 ^ 2) ++ " MB") ∧
    (∀ n : Nat, 1024 ^ 3 ≤ n → n < 1024 ^ 4 →
      bytes_to_human_readable n = formatFixed2 n (1024 ^ 3) ++ " GB") ∧
    (∀ n : Nat, 1024 ^ 4 ≤ n →
      bytes_to_human_readable n = formatFixed2 n (1024 ^ 4) ++ " TB") ∧
    bytes_to_human_readable 1536 = "1.50 KB" := by
  refine ⟨fun n h => ?_, fun n h1 h2 => ?_, fun n h1 h2 => ?_, fun n h1 h2 => ?_,
    fun n h1 => ?_, ?_⟩
  · simp only [bytes_to_human_readable]
    rw [if_pos h]
  · simp only [bytes_to_human_readable]
    rw [if_neg (by omega), if_pos h2]
  · simp only [bytes_to_human_readable]
    rw [if_neg (by norm_num at h1 ⊢; omega), if_neg (by norm_num at h1 ⊢; omega), if_pos h2]
  · simp only [bytes_to_human_readable]
    rw [if_neg (by norm_num at h1 ⊢; omega), if_neg (by norm_num at h1 ⊢; omega),
      if_neg (by norm_num at h1 ⊢; omega), if_pos h2]
  · simp only [bytes_to_human_readable]
    rw [if_neg (by norm_num at h1 ⊢; omega), if_neg (by norm_num at h1 ⊢; omega),
      if_neg (by norm_num at h1 ⊢; omega), if_neg (by norm_num at h1 ⊢; omega)]
  · decide

theorem byte_formatting_thresholds_wit :
    bytes_to_human_readable 2048 = formatFixed2 2048 1024 ++ " KB" :=
  byte_formatting_thresholds.2.1 2048 (by norm_num) (by norm_num)

/-- C1 counterexample: with the organization list `[{name "Acme",
id ""}]` and target name "Acme" there is a first list element whose
`name` equals the target (`findId` resolves it to its id `""`), yet
`get_meraki_ap_data` returns the `Organization not found` error
dictionary rather than proceeding with that id, because the Python
truthiness test `if not org_id` also rejects an empty-string id. -/
theorem name_resolution_first_match_cex :
    findId [⟨"Acme", ""⟩] "Acme" = some "" ∧
    (get_meraki_ap_data apWemptyId "Acme" "N" 7).1 =
      .error ("Organization " ++ pyQuote ++ "Acme" ++ pyQuote ++ " not found") :=
  ⟨rfl, rfl⟩

/-- C1 (amended): the name-to-id loop returns the id of the first list
element whose `name` equals the target, and the three fetch scripts
proceed with that id provided it is truthy (non-empty): the next request
in the log uses exactly the resolved id.  When no element matches — or
when the first match carries an empty id, which the Python truthiness
test rejects — the script returns the corresponding not-found error
dictionary. -/
theorem name_resolution_first_match :
    (∀ (pre post : List NamedEnt) (e : NamedEnt) (t : String),
      (∀ x ∈ pre, x.name ≠ t) → e.name = t →
      findId (pre ++ e :: post) t = some e.id) ∧
    (∀ (l : List NamedEnt) (t : String), (∀ x ∈ l, x.name ≠ t) → findId l t = none) ∧
    (∀ (w : ApWorld) (os : List NamedEnt) (orgName netName : String) (d : Nat),
      w.orgsResp = .ok os → (findId os orgName = none ∨ findId os orgName = some "") →
      (get_meraki_ap_data w orgName netName d).1 =
        .error ("Organization " ++ pyQuote ++ orgName ++ pyQuote ++ " not found")) ∧
    (∀ (w : ApWorld) (os : List NamedEnt) (orgName netName : String) (d : Nat) (oid : String),
      w.orgsResp = .ok os → findId os orgName = some oid → oid ≠ "" →
      ∃ rest, (get_meraki_ap_data w orgName netName d).2 = .orgs :: .networks oid :: rest) ∧
    (∀ (w : ApWorld) (os ns : List NamedEnt) (orgName netName : String) (d : Nat) (oid : String),
      w.orgsResp = .ok os → findId os orgName = some oid → oid ≠ "" →
      w.networksResp oid = .ok ns →
      (findId ns netName = none ∨ findId ns netName = some "") →
      (get_meraki_ap_data w orgName netName d).1 =
        .error ("Network " ++ pyQuote ++ netName ++ pyQuote ++
          " not found in organization " ++ pyQuote ++ orgName ++ pyQuote)) ∧
    (∀ (w : ApWorld) (os ns : List NamedEnt) (orgName netName : String) (d : Nat)
       (oid nid : String),
      w.orgsResp = .ok os → findId os orgName = some oid → oid ≠ "" →
      w.networksResp oid = .ok ns → findId ns netName = some nid → nid ≠ "" →
      ∃ rest, (get_meraki_ap_data w orgName netName d).2 =
        .orgs :: .networks oid :: .devices nid :: rest) ∧
    (∀ (w : UsageWorld) (os : List NamedEnt) (orgName netName : String) (d : Nat),
      w.orgsResp = .ok os → (findId os orgName = none ∨ findId os orgName = some "") →
      (get_meraki_client_usage w orgName netName d).1 =
        .err ("Organization " ++ pyQuote ++ orgName ++ pyQuote ++ " not found")) ∧
    (∀ (w : UsageWorld) (os ns : List NamedEnt) (orgName netName : String) (d : Nat)
       (oid : String),
      w.orgsResp = .ok os → findId os orgName = some oid → oid ≠ "" →
      w.networksResp oid = .ok ns →
      (findId ns netName = none ∨ findId ns netName = some "") →
      (get_meraki_client_usage w orgName netName d).1 =
        .err ("Network " ++ pyQuote ++ netName ++ pyQuote ++
          " not found in organization " ++ pyQuote ++ orgName ++ pyQuote)) ∧
    (∀ (w : EventsWorld) (os : List NamedEnt) (orgName netName : String),
      w.orgsResp = .ok os → (findId os orgName = none ∨ findId os orgName = some "") →
      (get_meraki_client_events w orgName netName).1 =
        .err ("Organization " ++ pyQuote ++ orgName ++ pyQuote ++ " not found")) ∧
    (∀ (w : EventsWorld) (os ns : List NamedEnt) (orgName netName : String) (oid : String),
      w.orgsResp = .ok os → findId os orgName = some oid → oid ≠ "" →
      w.networksResp oid = .ok ns →
      (findId ns netName = none ∨ findId ns netName = some "") →
      (get_meraki_client_events w orgName netName).1 =
        .err ("Network " ++ pyQuote ++ netName ++ pyQuote ++
          " not found in organization " ++ pyQuote ++ orgName ++ pyQuote)) := by
  refine ⟨?_, ?_, ?_, ?_, ?_, ?_, ?_, ?_, ?_, ?_⟩
  · intro pre post e t hpre ht
    induction pre with
    | nil => simp [findId, ht]
    | cons x xs ih =>
      have hx : x.name ≠ t := hpre x (by simp)
      simp only [List.cons_append, findId, if_neg hx]
      exact ih (fun y hy => hpre y (by simp [hy]))
  · intro l t hl
    induction l with
    | nil => rfl
    | cons x xs ih =>
      have hx : x.name ≠ t := hl x (by simp)
      simp only [findId, if_neg hx]
      exact ih (fun y hy => hl y (by simp [hy]))
  · intro w os orgName netName d h1 h2
    rcases h2 with h2 | h2 <;> simp [get_meraki_ap_data, h1, h2]
  · intro w os orgName netName d oid h1 h2 h3
    simp only [get_meraki_ap_data, h1, h2]
    rw [if_neg h3]
    rcases hn : w.networksResp oid with e | ns
    · simp only [hn]
      exact ⟨_, rfl⟩
    · simp only [hn]
      rcases hf : findId ns netName with _ | nid
      · simp only [hf]
        exact ⟨_, rfl⟩
      · simp only [hf]
        by_cases hnid : nid = ""
        · rw [if_pos hnid]
          exact ⟨_, rfl⟩
        · rw [if_neg hnid]
          rcases hd : w.devicesResp nid with e | ds
          · simp only [hd]
            exact ⟨_, rfl⟩
          · simp only [hd]
            by_cases he : (selectAccessPoints ds).isEmpty
            · simp only [he, if_true]
              exact ⟨_, rfl⟩
            · simp only [he, if_false]
              exact ⟨_, rfl⟩
  · intro w os ns orgName netName d oid h1 h2 h3 h4 h5
    rcases h5 with h5 | h5 <;>
      simp [get_meraki_ap_data, h1, h2, h3, h4, h5]
  · intro w os ns orgName netName d oid nid h1 h2 h3 h4 h5 h6
    simp only [get_meraki_ap_data, h1, h2]
    rw [if_neg h3]
    simp only [h4, h5]
    rw [if_neg h6]
    rcases hd : w.devicesResp nid with e | ds
    · simp only [hd]
      exact ⟨_, rfl⟩
    · simp only [hd]
      by_cases he : (selectAccessPoints ds).isEmpty
      · simp only [he, if_true]
        exact ⟨_, rfl⟩
      · simp only [he, if_false]
        exact ⟨_, rfl⟩
  · intro w os orgName netName d h1 h2
    rcases h2 with h2 | h2 <;> simp [get_meraki_client_usage, h1, h2]
  · intro w os ns orgName netName d oid h1 h2 h3 h4 h5
    rcases h5 with h5 | h5 <;>
      simp [get_meraki_client_usage, h1, h2, h3, h4, h5]
  · intro w os orgName netName h1 h2
    rcases h2 with h2 | h2 <;> simp [get_meraki_client_events, h1, h2]
  · intro w os ns orgName netName oid h1 h2 h3 h4 h5
    rcases h5 with h5 | h5 <;>
      simp [get_meraki_client_events, h1, h2, h3, h4, h5]

theorem name_resolution_first_match_wit :
    findId [⟨"X", "1"⟩, ⟨"Acme", "42"⟩, ⟨"Acme", "43"⟩] "Acme" = some "42" :=
  name_resolution_first_match.1 [⟨"X", "1"⟩] [⟨"Acme", "43"⟩] ⟨"Acme", "42"⟩ "Acme"
    (by decide) rfl

/-- C3: every success result of `get_meraki_ap_data` has aggregates that
equal the sums over its `access_points` entries (clients, traffic sent
and received, with total = sent + received), and every success result of
`get_meraki_client_usage` has `total_usage` aggregates that equal the
sums of the per-client usage values over its `clients` list. -/
theorem aggregation_sums :
    (∀ (w : ApWorld) (orgName netName : String) (d : Nat) (r : ApResult) (log : List Req),
      get_meraki_ap_data w orgName netName d = (.ok r, log) →
      r.total_clients = (r.access_points.map (·.currentClients)).sum ∧
      r.total_traffic.sent = (r.access_points.map (·.currentTraffic.sent)).sum ∧
      r.total_traffic.received = (r.access_points.map (·.currentTraffic.received)).sum ∧
      r.total_traffic.total = r.total_traffic.sent + r.total_traffic.received) ∧
    (∀ (w : UsageWorld) (orgName netName : String) (d : Nat) (r : UsageResult) (log : List Req),
      get_meraki_client_usage w orgName netName d = (.ok r, log) →
      r.total_usage.sent_bytes = (r.clients.map (·.usage.sent)).sum ∧
      r.total_usage.received_bytes = (r.clients.map (·.usage.recv)).sum ∧
      r.total_usage.total_bytes = (r.clients.map (·.usage.total)).sum) := by
  constructor
  · intro w orgName netName d r log h
    simp only [get_meraki_ap_data] at h
    rcases horgs : w.orgsResp with e | os <;> simp only [horgs] at h
    · simp at h
    · rcases hf : findId os orgName with _ | oid <;> simp only [hf] at h
      · simp at h
      · by_cases hoid : oid = ""
        · rw [if_pos hoid] at h
          simp at h
        · rw [if_neg hoid] at h
          rcases hn : w.networksResp oid with e | ns <;> simp only [hn] at h
          · simp at h
          · rcases hfn : findId ns netName with _ | nid <;> simp only [hfn] at h
            · simp at h
            · by_cases hnid : nid = ""
              · rw [if_pos hnid] at h
                simp at h
              · rw [if_neg hnid] at h
                rcases hd : w.devicesResp nid with e | ds <;> simp only [hd] at h
                · simp at h
                · by_cases he : (selectAccessPoints ds).isEmpty = true
                  · rw [if_pos he] at h
                    simp at h
                  · rw [if_neg he] at h
                    simp only [Prod.mk.injEq, Except.ok.injEq] at h
                    obtain ⟨hr, hl⟩ := h
                    subst hr
                    exact ⟨rfl, rfl, rfl, rfl⟩
  · intro w orgName netName d r log h
    simp only [get_meraki_client_usage] at h
    rcases horgs : w.orgsResp with e | os <;> simp only [horgs] at h
    · simp at h
    · rcases hf : findId os orgName with _ | oid <;> simp only [hf] at h
      · simp at h
      · by_cases hoid : oid = ""
        · rw [if_pos hoid] at h
          simp at h
        · rw [if_neg hoid] at h
          rcases hn : w.networksResp oid with e | ns <;> simp only [hn] at h
          · simp at h
          · rcases hfn : findId ns netName with _ | nid <;> simp only [hfn] at h
            · simp at h
            · by_cases hnid : nid = ""
              · rw [if_pos hnid] at h
                simp at h
              · rw [if_neg hnid] at h
                rcases hc : w.clientsResp nid with e | cs <;> simp only [hc] at h
                · simp at h
                · by_cases he : cs.isEmpty = true
                  · rw [if_pos he] at h
                    simp at h
                  · rw [if_neg he] at h
                    simp only [Prod.mk.injEq, UOutcome.ok.injEq] at h
                    obtain ⟨hr, hl⟩ := h
                    subst hr
                    exact ⟨rfl, rfl, rfl⟩

theorem aggregation_sums_wit :
    (apOkD (get_meraki_ap_data apW0 "O" "N" 7).1).total_clients =
      ((apOkD (get_meraki_ap_data apW0 "O" "N" 7).1).access_points.map
        (·.currentClients)).sum ∧
    (uOkD (get_meraki_client_usage usageW0 "O" "N" 7).1).total_usage.sent_bytes =
      ((uOkD (get_meraki_client_usage usageW0 "O" "N" 7).1).clients.map
        (·.usage.sent)).sum := by
  constructor
  · exact (aggregation_sums.1 apW0 "O" "N" 7
      (apOkD (get_meraki_ap_data apW0 "O" "N" 7).1)
      (get_meraki_ap_data apW0 "O" "N" 7).2 (by with_unfolding_all rfl)).1
  · exact (aggregation_sums.2 usageW0 "O" "N" 7
      (uOkD (get_meraki_client_usage usageW0 "O" "N" 7).1)
      (get_meraki_client_usage usageW0 "O" "N" 7).2 (by with_unfolding_all rfl)).1

/-- C5: an HTTP exception in a top-level step (organizations, networks,
devices or the client list) makes each of the three fetch scripts —
`get_meraki_ap_data`, `get_meraki_client_usage` and
`get_meraki_client_events` — return an error dictionary immediately,
with no further requests in the log; an HTTP exception while fetching
one entity's details inside the per-entity loop only drops that entity —
the surrounding entities' results are unchanged and the script still
returns a success dictionary. -/
theorem http_error_scoping :
    (∀ (w : ApWorld) (e orgName netName : String) (d : Nat), w.orgsResp = .error e →
      get_meraki_ap_data w orgName netName d =
        (.error ("Error retrieving organizations: " ++ e), [.orgs])) ∧
    (∀ (w : ApWorld) (os : List NamedEnt) (oid e orgName netName : String) (d : Nat),
      w.orgsResp = .ok os → findId os orgName = some oid → oid ≠ "" →
      w.networksResp oid = .error e →
      get_meraki_ap_data w orgName netName d =
        (.error ("Error retrieving networks: " ++ e), [.orgs, .networks oid])) ∧
    (∀ (w : ApWorld) (os ns : List NamedEnt) (oid nid e orgName netName : String) (d : Nat),
      w.orgsResp = .ok os → findId os orgName = some oid → oid ≠ "" →
      w.networksResp oid = .ok ns → findId ns netName = some nid → nid ≠ "" →
      w.devicesResp nid = .error e →
      get_meraki_ap_data w orgName netName d =
        (.error ("Error retrieving devices: " ++ e), [.orgs, .networks oid, .devices nid])) ∧
    (∀ (w : ApWorld) (l : List Device),
      (processAps w l).1 = l.filterMap (fun dv => (apDetail w dv).1)) ∧
    (∀ (w : ApWorld) (xs ys : List Device) (dv : Device), (apDetail w dv).1 = none →
      (processAps w (xs ++ dv :: ys)).1 = (processAps w xs).1 ++ (processAps w ys).1) ∧
    (∀ (w : ApWorld) (os ns : List NamedEnt) (ds : List Device)
       (oid nid orgName netName : String) (d : Nat),
      w.orgsResp = .ok os → findId os orgName = some oid → oid ≠ "" →
      w.networksResp oid = .ok ns → findId ns netName = some nid → nid ≠ "" →
      w.devicesResp nid = .ok ds → (selectAccessPoints ds).isEmpty = false →
      ∃ r log, get_meraki_ap_data w orgName netName d = (.ok r, log) ∧
        r.access_points = (selectAccessPoints ds).filterMap (fun dv => (apDetail w dv).1)) ∧
    (∀ (w : EventsWorld) (nid : String) (xs ys : List EventClient) (c : EventClient)
       (e : String),
      w.eventsResp nid c.id = .error e →
      (eventsLoop w nid (xs ++ c :: ys)).1 =
        (eventsLoop w nid xs).1 ++ (eventsLoop w nid ys).1) ∧
    (∀ (w : EventsWorld) (os ns : List NamedEnt) (cs : List EventClient)
       (oid nid orgName netName : String),
      w.orgsResp = .ok os → findId os orgName = some oid → oid ≠ "" →
      w.networksResp oid = .ok ns → findId ns netName = some nid → nid ≠ "" →
      w.clientsResp nid = .ok cs → cs.isEmpty = false →
      ∃ r log, get_meraki_client_events w orgName netName = (.ok r, log) ∧
        r.events = (eventsLoop w nid cs).1) ∧
    (∀ (w : UsageWorld) (e orgName netName : String) (d : Nat), w.orgsResp = .error e →
      get_meraki_client_usage w orgName netName d =
        (.err ("Error retrieving organizations: " ++ e), [.orgs])) ∧
    (∀ (w : UsageWorld) (os : List NamedEnt) (oid e orgName netName : String) (d : Nat),
      w.orgsResp = .ok os → findId os orgName = some oid → oid ≠ "" →
      w.networksResp oid = .error e →
      get_meraki_client_usage w orgName netName d =
        (.err ("Error retrieving networks: " ++ e), [.orgs, .networks oid])) ∧
    (∀ (w : UsageWorld) (os ns : List NamedEnt) (oid nid e orgName netName : String)
       (d : Nat),
      w.orgsResp = .ok os → findId os orgName = some oid → oid ≠ "" →
      w.networksResp oid = .ok ns → findId ns netName = some nid → nid ≠ "" →
      w.clientsResp nid = .error e →
      get_meraki_client_usage w orgName netName d =
        (.err ("Error retrieving client usage data: " ++ e),
         [.orgs, .networks oid, .netClients nid])) ∧
    (∀ (w : EventsWorld) (e orgName netName : String), w.orgsResp = .error e →
      get_meraki_client_events w orgName netName =
        (.err ("Error retrieving organizations: " ++ e), [.orgs])) ∧
    (∀ (w : EventsWorld) (os : List NamedEnt) (oid e orgName netName : String),
      w.orgsResp = .ok os → findId os orgName = some oid → oid ≠ "" →
      w.networksResp oid = .error e →
      get_meraki_client_events w orgName netName =
        (.err ("Error retrieving networks: " ++ e), [.orgs, .networks oid])) ∧
    (∀ (w : EventsWorld) (os ns : List NamedEnt) (oid nid e orgName netName : String),
      w.orgsResp = .ok os → findId os orgName = some oid → oid ≠ "" →
      w.networksResp oid = .ok ns → findId ns netName = some nid → nid ≠ "" →
      w.clientsResp nid = .error e →
      get_meraki_client_events w orgName netName =
        (.err ("Error retrieving clients: " ++ e),
         [.orgs, .networks oid, .netClients nid])) := by
  refine ⟨?_, ?_, ?_, ?_, ?_, ?_, ?_, ?_, ?_, ?_, ?_, ?_, ?_, ?_⟩
  · intro w e orgName netName d h
    simp [get_meraki_ap_data, h]
  · intro w os oid e orgName netName d h1 h2 h3 h4
    simp only [get_meraki_ap_data, h1, h2]
    rw [if_neg h3]
    simp only [h4]
  · intro w os ns oid nid e orgName netName d h1 h2 h3 h4 h5 h6 h7
    simp only [get_meraki_ap_data, h1, h2]
    rw [if_neg h3]
    simp only [h4, h5]
    rw [if_neg h6]
    simp only [h7]
  · exact processAps_eq_filterMap
  · intro w xs ys dv h
    simp [processAps_eq_filterMap, List.filterMap_append, List.filterMap_cons, h]
  · intro w os ns ds oid nid orgName netName d h1 h2 h3 h4 h5 h6 h7 h8
    simp only [get_meraki_ap_data, h1, h2]
    rw [if_neg h3]
    simp only [h4, h5]
    rw [if_neg h6]
    simp only [h7]
    rw [if_neg (by simp [h8])]
    refine ⟨_, _, rfl, ?_⟩
    exact processAps_eq_filterMap w (selectAccessPoints ds)
  · intro w nid xs ys c e h
    simp [eventsLoop_eq_flatten, evOne, h]
  · intro w os ns cs oid nid orgName netName h1 h2 h3 h4 h5 h6 h7 h8
    simp only [get_meraki_client_events, h1, h2]
    rw [if_neg h3]
    simp only [h4, h5]
    rw [if_neg h6]
    simp only [h7]
    rw [if_neg (by simp [h8])]
    exact ⟨_, _, rfl, rfl⟩
  · intro w e orgName netName d h
    simp [get_meraki_client_usage, h]
  · intro w os oid e orgName netName d h1 h2 h3 h4
    simp only [get_meraki_client_usage, h1, h2]
    rw [if_neg h3]
    simp only [h4]
  · intro w os ns oid nid e orgName netName d h1 h2 h3 h4 h5 h6 h7
    simp only [get_meraki_client_usage, h1, h2]
    rw [if_neg h3]
    simp only [h4, h5]
    rw [if_neg h6]
    simp only [h7]
  · intro w e orgName netName h
    simp [get_meraki_client_events, h]
  · intro w os oid e orgName netName h1 h2 h3 h4
    simp only [get_meraki_client_events, h1, h2]
    rw [if_neg h3]
    simp only [h4]
  · intro w os ns oid nid e orgName netName h1 h2 h3 h4 h5 h6 h7
    simp only [get_meraki_client_events, h1, h2]
    rw [if_neg h3]
    simp only [h4, h5]
    rw [if_neg h6]
    simp only [h7]

theorem http_error_scoping_wit :
    get_meraki_ap_data apWorgFail "O" "N" 7 =
      (.error ("Error retrieving organizations: " ++ "boom"), [.orgs]) ∧
    (processAps apWpartial
      ([{model := some "CW9166", serial := some "S1"}] ++
        ({model := some "CW9164", serial := some "S2"} : Device) ::
        [{model := some "CW9162", serial := some "S3"}])).1 =
      (processAps apWpartial [{model := some "CW9166", serial := some "S1"}]).1 ++
      (processAps apWpartial [{model := some "CW9162", serial := some "S3"}]).1 ∧
    get_meraki_client_usage ⟨.error "boom", fun _ => .error "u", fun _ => .error "u"⟩
        "O" "N" 7 =
      (.err ("Error retrieving organizations: " ++ "boom"), [.orgs]) ∧
    get_meraki_client_events
        ⟨.error "boom", fun _ => .error "u", fun _ => .error "u", fun _ _ => .error "u"⟩
        "O" "N" =
      (.err ("Error retrieving organizations: " ++ "boom"), [.orgs]) := by
  refine ⟨?_, ?_, ?_, ?_⟩
  · exact http_error_scoping.1 apWorgFail "boom" "O" "N" 7 rfl
  · exact http_error_scoping.2.2.2.2.1 apWpartial _ _ _ (by with_unfolding_all rfl)
  · exact http_error_scoping.2.2.2.2.2.2.2.2.1
      ⟨.error "boom", fun _ => .error "u", fun _ => .error "u"⟩ "boom" "O" "N" 7 rfl
  · exact http_error_scoping.2.2.2.2.2.2.2.2.2.2.2.1
      ⟨.error "boom", fun _ => .error "u", fun _ => .error "u", fun _ _ => .error "u"⟩
      "boom" "O" "N" rfl

set_option maxRecDepth 8000 in
/-- C6 counterexample: the Flask front-end keeps one module-level
chatbot shared by all sessions.  Starting from a fresh process, session
A runs `set_api_key K123` (state `flaskS1`); session B, which has never
stored an API key (`flaskS1.sess "B" = none`), then sends `orgs` and the
command executes with A's key (reaching the HTTP layer and reporting its
failure), whereas without A's earlier command the same request by B is
refused with the please-set-your-key message — so processing a command
in one session changes the response another session receives. -/
theorem flask_session_interference_cex :
    respOf (route_process_command flaskW0 flaskS1 "B" "orgs") =
      some (.ok "Failed to retrieve organizations. Status code: 500 - boom") ∧
    respOf (route_process_command flaskW0 flaskS0 "B" "orgs") =
      some (.ok "Please set your API key first using: set_api_key YOUR_API_KEY") ∧
    respOf (route_process_command flaskW0 flaskS1 "B" "orgs") ≠
      respOf (route_process_command flaskW0 flaskS0 "B" "orgs") ∧
    flaskS1.sess "B" = none := by
  have h1 : respOf (route_process_command flaskW0 flaskS1 "B" "orgs") =
      some (.ok "Failed to retrieve organizations. Status code: 500 - boom") := by
    with_unfolding_all rfl
  have h2 : respOf (route_process_command flaskW0 flaskS0 "B" "orgs") =
      some (.ok "Please set your API key first using: set_api_key YOUR_API_KEY") := by
    with_unfolding_all rfl
  refine ⟨h1, h2, ?_, by with_unfolding_all rfl⟩
  rw [h1, h2]
  decide

/-- C6 (amended): the per-request handler re-installs the caller's own
session key on the shared chatbot before processing, so any two requests
whose sessions store the same key get the same response regardless of
the rest of the process state; but the chatbot instance itself is shared
module-level mutable state, and a session that has stored no key runs
its command with whatever key is currently on the shared chatbot — the
key most recently installed by any session. -/
theorem flask_session_isolation_amended :
    (∀ (attempts : List (Except String Resp)) (st st2 : FlaskState) (sid cmd k : String),
      st.sess sid = some k → st2.sess sid = some k →
      respOf (route_process_command attempts st sid cmd) =
        respOf (route_process_command attempts st2 sid cmd)) ∧
    (∀ (attempts : List (Except String Resp)) (st : FlaskState) (sid cmd : String),
      st.sess sid = none →
      respOf (route_process_command attempts st sid cmd) =
        (MerakiChatbot.process_command st.chatbotKey cmd attempts).map
          (fun pc => pc.reply)) := by
  constructor
  · intro attempts st st2 sid cmd k h1 h2
    simp only [route_process_command, respOf, h1, h2]
    cases hp : MerakiChatbot.process_command (some k) cmd attempts with
    | none => rfl
    | some pc =>
      cases hr : pc.reply <;> simp [hr]
  · intro attempts st sid cmd h
    simp only [route_process_command, respOf, h]
    cases hp : MerakiChatbot.process_command st.chatbotKey cmd attempts with
    | none => rfl
    | some pc =>
      cases hr : pc.reply <;> simp [hr]

theorem flask_session_isolation_amended_wit :
    respOf (route_process_command flaskW0 ⟨some "X", fun _ => some "K"⟩ "B" "orgs") =
      respOf (route_process_command flaskW0 ⟨none, fun _ => some "K"⟩ "B" "orgs") :=
  flask_session_isolation_amended.1 flaskW0 ⟨some "X", fun _ => some "K"⟩
    ⟨none, fun _ => some "K"⟩ "B" "orgs" "K" rfl rfl

/-- C7: every run of `get_meraki_ap_data` issues its requests in
dependency order — the request log is always the organizations request
alone, or that followed by the networks request for the already-resolved
organization id, or those followed by the devices request for the
already-resolved network id and then only per-device detail requests.
In particular no networks request precedes organization resolution and
no devices or detail request precedes resolution of both ids. -/
theorem call_sequencing_by_dependency :
    ∀ (w : ApWorld) (orgName netName : String) (d : Nat),
      (get_meraki_ap_data w orgName netName d).2 = [.orgs] ∨
      (∃ (os : List NamedEnt) (oid : String),
        w.orgsResp = .ok os ∧ findId os orgName = some oid ∧ oid ≠ "" ∧
        (get_meraki_ap_data w orgName netName d).2 = [.orgs, .networks oid]) ∨
      (∃ (os ns : List NamedEnt) (oid nid : String) (rest : List Req),
        w.orgsResp = .ok os ∧ findId os orgName = some oid ∧ oid ≠ "" ∧
        w.networksResp oid = .ok ns ∧ findId ns netName = some nid ∧ nid ≠ "" ∧
        (get_meraki_ap_data w orgName netName d).2 =
          .orgs :: .networks oid :: .devices nid :: rest ∧
        rest.all Req.isDetail = true) := by
  intro w orgName netName d
  rcases horgs : w.orgsResp with e | os
  · left
    simp [get_meraki_ap_data, horgs]
  · rcases hf : findId os orgName with _ | oid
    · left
      simp [get_meraki_ap_data, horgs, hf]
    · by_cases hoid : oid = ""
      · left
        simp [get_meraki_ap_data, horgs, hf, hoid]
      · rcases hn : w.networksResp oid with e | ns
        · right; left
          exact ⟨os, oid, rfl, hf, hoid,
            by simp [get_meraki_ap_data, horgs, hf, hoid, hn]⟩
        · rcases hfn : findId ns netName with _ | nid
          · right; left
            exact ⟨os, oid, rfl, hf, hoid,
              by simp [get_meraki_ap_data, horgs, hf, hoid, hn, hfn]⟩
          · by_cases hnid : nid = ""
            · right; left
              exact ⟨os, oid, rfl, hf, hoid,
                by simp [get_meraki_ap_data, horgs, hf, hoid, hn, hfn, hnid]⟩
            · rcases hd : w.devicesResp nid with e | ds
              · right; right
                refine ⟨os, ns, oid, nid, [], rfl, hf, hoid, hn, hfn, hnid, ?_, rfl⟩
                simp [get_meraki_ap_data, horgs, hf, hoid, hn, hfn, hnid, hd]
              · by_cases he : (selectAccessPoints ds).isEmpty = true
                · right; right
                  refine ⟨os, ns, oid, nid, [], rfl, hf, hoid, hn, hfn, hnid, ?_, rfl⟩
                  simp [get_meraki_ap_data, horgs, hf, hoid, hn, hfn, hnid, hd, he]
                · right; right
                  refine ⟨os, ns, oid, nid, (processAps w (selectAccessPoints ds)).2,
                    rfl, hf, hoid, hn, hfn, hnid, ?_, processAps_log_detail w _⟩
                  simp [get_meraki_ap_data, horgs, hf, hoid, hn, hfn, hnid, hd, he]

/-- C8: when the chatbot's API key is unset (None or empty), any command
whose first whitespace token, lowercased, is neither `help` nor
`set_api_key` is answered with the please-set-your-key message and no
HTTP call is made; the empty command is answered with
"Please enter a command.", likewise without any HTTP call. -/
theorem api_key_guard :
    (∀ (key : Option String) (cmd tok : String) (args : List String)
       (attempts : List (Except String Resp)),
      pySplit cmd = tok :: args → tok.toLower ≠ "help" → tok.toLower ≠ "set_api_key" →
      MerakiChatbot.keyFalsy key = true →
      MerakiChatbot.process_command key cmd attempts =
        some ⟨.ok "Please set your API key first using: set_api_key YOUR_API_KEY",
          0, key⟩) ∧
    (∀ (key : Option String) (attempts : List (Except String Resp)),
      MerakiChatbot.process_command key "" attempts =
        some ⟨.ok "Please enter a command.", 0, key⟩) := by
  constructor
  · intro key cmd tok args attempts hsplit h1 h2 h3
    have hcmd : cmd ≠ "" := by
      intro hc
      rw [hc] at hsplit
      have hnil : pySplit "" = [] := by with_unfolding_all rfl
      rw [hnil] at hsplit
      exact List.noConfusion hsplit
    simp only [MerakiChatbot.process_command, if_neg hcmd, hsplit]
    rw [if_pos ⟨h1, h2, h3⟩]
  · intro key attempts
    rfl

theorem api_key_guard_wit :
    MerakiChatbot.process_command none "orgs" [] =
      some ⟨.ok "Please set your API key first using: set_api_key YOUR_API_KEY",
        0, none⟩ := by
  have ht : "orgs".toLower = "orgs" := by with_unfolding_all rfl
  have hs : pySplit "orgs" = ["orgs"] := by with_unfolding_all rfl
  exact api_key_guard.1 none "orgs" "orgs" [] [] hs
    (by rw [ht]; decide) (by rw [ht]; decide) rfl

/-- C9: `get_meraki_ap_data` classifies as access points exactly the
devices whose model string starts with `CW`: membership in the filtered
list is equivalent to membership in the device list plus the `CW`
prefix; a device without a truthy serial is skipped without requests;
and when no device's model starts with `CW` the script returns the
`No access points found in the network` error, while a non-empty filter
yields a success result whose entries come exactly from the filtered
devices. -/
theorem cw_model_filter :
    (∀ (ds : List Device) (dv : Device),
      dv ∈ selectAccessPoints ds ↔
        dv ∈ ds ∧ (dv.model.getD "").startsWith "CW" = true) ∧
    (∀ (w : ApWorld) (dv : Device), dv.serial.getD "" = "" →
      apDetail w dv = (none, [])) ∧
    (∀ (w : ApWorld) (os ns : List NamedEnt) (ds : List Device)
       (oid nid orgName netName : String) (d : Nat),
      w.orgsResp = .ok os → findId os orgName = some oid → oid ≠ "" →
      w.networksResp oid = .ok ns → findId ns netName = some nid → nid ≠ "" →
      w.devicesResp nid = .ok ds →
      ((∀ dv ∈ ds, (dv.model.getD "").startsWith "CW" = false) →
        (get_meraki_ap_data w orgName netName d).1 =
          .error "No access points found in the network") ∧
      ((selectAccessPoints ds).isEmpty = false →
        ∃ r log, get_meraki_ap_data w orgName netName d = (.ok r, log) ∧
          r.access_points =
            (selectAccessPoints ds).filterMap (fun dv => (apDetail w dv).1))) := by
  refine ⟨?_, ?_, ?_⟩
  · intro ds dv
    simp [selectAccessPoints, List.mem_filter]
  · intro w dv h
    simp [apDetail, h]
  · intro w os ns ds oid nid orgName netName d h1 h2 h3 h4 h5 h6 h7
    constructor
    · intro hall
      have hemp : (selectAccessPoints ds).isEmpty = true := by
        have hfil : selectAccessPoints ds = [] := by
          simp only [selectAccessPoints]
          rw [List.filter_eq_nil_iff]
          intro a ha
          simp [hall a ha]
        simp [hfil]
      simp only [get_meraki_ap_data, h1, h2]
      rw [if_neg h3]
      simp only [h4, h5]
      rw [if_neg h6]
      simp only [h7]
      rw [if_pos hemp]
    · intro h8
      simp only [get_meraki_ap_data, h1, h2]
      rw [if_neg h3]
      simp only [h4, h5]
      rw [if_neg h6]
      simp only [h7]
      rw [if_neg (by simp [h8])]
      refine ⟨_, _, rfl, ?_⟩
      exact processAps_eq_filterMap w (selectAccessPoints ds)

theorem cw_model_filter_wit :
    (get_meraki_ap_data apWnoCW "O" "N" 7).1 =
      .error "No access points found in the network" := by
  have h2 : findId [⟨"O", "oid1"⟩] "O" = some "oid1" := by with_unfolding_all rfl
  have h5 : findId [⟨"N", "nid1"⟩] "N" = some "nid1" := by with_unfolding_all rfl
  refine (cw_model_filter.2.2 apWnoCW [⟨"O", "oid1"⟩] [⟨"N", "nid1"⟩]
    [{model := some "MS250", serial := some "S2"}] "oid1" "nid1" "O" "N" 7
    rfl h2 (by decide) rfl h5 (by decide) rfl).1 ?_
  intro dv hdv
  rw [List.mem_singleton] at hdv
  subst hdv
  with_unfolding_all rfl

